import Mathlib

/-!
Shallow embedding of the AI TutorBot service (`src/ai.py`): the prompt
builder `build_prompt`, the retrying upstream client `ask_openrouter`,
the request handler `ask_tutor`, and the rate gate `wait_for_rate_limit`.

Python strings are modelled as Lean `String`; the Python string
operations used by the code (`str.lower`, `str.strip`, `int(...)`)
are given executable models over the character list (`String.data`),
faithful on ASCII input (Unicode-only digit forms and locale case
rules are outside the inputs this service manipulates).

The upstream provider and the event loop are the environment: each
loop iteration's observable outcome (HTTP success with extracted
message content, an HTTP status error with optional Retry-After
header, or any other exception) is supplied by a function from the
1-based attempt number, and the client is a pure function from that
environment to the list of performed actions (network posts and
sleeps) plus the final outcome.
-/

namespace TutorBot

/-- Model of Python `str.lower()` (ASCII case mapping). -/
def pyLower (s : String) : String := ⟨s.data.map Char.toLower⟩

/-- Model of Python `str.strip()`: drop whitespace from both ends. -/
def pyStrip (s : String) : String :=
  ⟨((s.data.dropWhile Char.isWhitespace).reverse.dropWhile Char.isWhitespace).reverse⟩

/-- Digit run acceptor for Python `int(...)`: decimal digits with single
underscores allowed between digits (PEP 515), returning the value. -/
def pyDigitCore : Nat → List Char → Option Nat
  | acc, [] => some acc
  | acc, c :: cs =>
    if c.isDigit then pyDigitCore (10 * acc + (c.toNat - 48)) cs
    else if c = '_' then
      match cs with
      | [] => none
      | c2 :: cs2 => if c2.isDigit then pyDigitCore (10 * acc + (c2.toNat - 48)) cs2 else none
    else none

/-- Model of Python `int(s)` on a string: strip whitespace, optional
sign, then a nonempty digit run; `none` models a raised `ValueError`. -/
def pythonInt (s : String) : Option Int :=
  match (pyStrip s).data with
  | [] => none
  | '+' :: c :: cs => if c.isDigit then (pyDigitCore 0 (c :: cs)).map Int.ofNat else none
  | '-' :: c :: cs => if c.isDigit then (pyDigitCore 0 (c :: cs)).map (fun n => -(n : Int)) else none
  | c :: cs => if c.isDigit then (pyDigitCore 0 (c :: cs)).map Int.ofNat else none

/-- `TutorRequest` (`src/ai.py` lines 31-35). -/
structure TutorRequest where
  student_id : String
  subject : String
  level : String
  question : String
deriving DecidableEq

/-- The JSON object returned by `ask_tutor` (`src/ai.py` lines 145-151). -/
structure TutorResponse where
  student_id : String
  subject : String
  level : String
  question : String
  answer : String
deriving DecidableEq

/-- The persona dictionary `prompts` inside `build_prompt`
(`src/ai.py` lines 59-68). -/
def promptsTable : List (String × String) :=
  [("math", "You are a friendly Math tutor."),
   ("science", "You explain science with clarity and excitement."),
   ("sst", "You teach Social Studies using relatable examples."),
   ("english", "You help students learn English using simple grammar tips and vocabulary."),
   ("biology", "You explain biology concepts visually and clearly."),
   ("chemistry", "You explain chemistry using everyday examples."),
   ("coding", "You teach programming with clear code samples."),
   ("history", "You explain history as engaging stories.")]

/-- The fallback persona used on a dictionary miss (`src/ai.py` line 69). -/
def defaultPersona : String := "You are a helpful AI tutor."

/-- `prompts.get(subject.lower(), "You are a helpful AI tutor.")`
(`src/ai.py` line 69). -/
def personaFor (subject : String) : String :=
  match promptsTable.find? (fun p => p.1 == pyLower subject) with
  | some p => p.2
  | none => defaultPersona

/-- The final line of the prompt template (`src/ai.py` line 73). -/
def closingInstruction : String :=
  "Please explain in a clear, friendly tone with examples."

/-- `build_prompt` (`src/ai.py` lines 58-74). -/
def build_prompt (subject level question : String) : String :=
  personaFor subject ++ " The student is at a " ++ level ++ " level.\n" ++
    "They asked: \"" ++ question ++ "\"\n" ++ closingInstruction

/-- Observable outcome of one loop iteration's upstream interaction:
a 2xx response whose extracted `choices[0].message.content` is
`content`; a non-2xx status raising `httpx.HTTPStatusError` with the
given status, optional `Retry-After` header value and body text; or
any other exception (transport error, JSON error, ...). -/
inductive AttemptOutcome where
  | success (content : String)
  | httpError (status : Nat) (retryAfter : Option String) (body : String)
  | otherError (msg : String)
deriving DecidableEq

/-- Externally visible side effects of `ask_openrouter`: one upstream
POST, or an `asyncio.sleep` of the given number of seconds. -/
inductive Action where
  | post
  | sleep (seconds : Int)
deriving DecidableEq

/-- How `ask_openrouter` terminates: a returned reply string, a raised
`HTTPException(status, detail)`, an escaped `ValueError` from `int()`
on a non-numeric `Retry-After` header (carrying the offending text),
or falling off the end of the loop, returning Python `None`. -/
inductive AskResult where
  | ok (reply : String)
  | httpException (status : Nat) (detail : String)
  | uncaughtValueError (litText : String)
  | noneReturn
deriving DecidableEq

/-- Message of the `ValueError` raised on a final-attempt empty reply
(`src/ai.py` line 109). -/
def emptyReplyMsg : String := "Empty reply from OpenRouter after multiple attempts."

/-- The retry loop `for attempt in range(1, retries + 1)` of
`ask_openrouter` (`src/ai.py` lines 98-130), run over an explicit list
of attempt numbers; `env` gives each attempt's upstream outcome.
Returns the performed actions and the terminal result. -/
def askAttempts (env : Nat → AttemptOutcome) (retries : Nat) :
    List Nat → List Action × AskResult
  | [] => ([], AskResult.noneReturn)
  | attempt :: rest =>
    match env attempt with
    | AttemptOutcome.success content =>
      if pyStrip content = "" then
        if attempt = retries then
          ([Action.post],
           AskResult.httpException 502 ("TutorBot failed to respond: " ++ emptyReplyMsg))
        else
          (Action.post :: Action.sleep ((2 : Int) ^ attempt) :: (askAttempts env retries rest).1,
           (askAttempts env retries rest).2)
      else
        ([Action.post], AskResult.ok (pyStrip content))
    | AttemptOutcome.httpError status retryAfter body =>
      if status = 429 then
        match retryAfter with
        | none =>
          (Action.post :: Action.sleep ((2 : Int) ^ attempt) :: (askAttempts env retries rest).1,
           (askAttempts env retries rest).2)
        | some s =>
          match pythonInt s with
          | some n =>
            (Action.post :: Action.sleep n :: (askAttempts env retries rest).1,
             (askAttempts env retries rest).2)
          | none => ([Action.post], AskResult.uncaughtValueError s)
      else if attempt = retries then
        ([Action.post],
         AskResult.httpException 502 ("Failed to get response from the tutor: " ++ body))
      else
        (Action.post :: (askAttempts env retries rest).1, (askAttempts env retries rest).2)
    | AttemptOutcome.otherError msg =>
      if attempt = retries then
        ([Action.post], AskResult.httpException 502 ("TutorBot failed to respond: " ++ msg))
      else
        (Action.post :: Action.sleep ((2 : Int) ^ attempt) :: (askAttempts env retries rest).1,
         (askAttempts env retries rest).2)

/-- Python truthiness of `not OPENROUTER_API_KEY`: the key is missing
when unset (`os.getenv` returned `None`) or the empty string. -/
def keyMissing : Option String → Bool
  | none => true
  | some s => s == ""

/-- `ask_openrouter` (`src/ai.py` lines 77-130): the missing-key guard,
then the retry loop over attempts `1, ..., retries`. `prompt` and
`student_id` only enter the payload and the logs, never the control
flow. -/
def ask_openrouter (apiKey : Option String) (prompt student_id : String)
    (retries : Nat) (env : Nat → AttemptOutcome) : List Action × AskResult :=
  if keyMissing apiKey then
    ([], AskResult.httpException 500 "Missing OpenRouter API key")
  else
    askAttempts env retries (List.range' 1 retries)

/-- The handler's fallback answer (`src/ai.py` line 142). -/
def fallbackAnswer : String :=
  "Apologies, the TutorBot couldn’t generate a reply. Please try again shortly."

/-- How the `/ask_tutor` endpoint terminates: a 200 JSON response, a
propagated `HTTPException(status, detail)`, or an exception that
escapes the taxonomy (the `ValueError` of a non-numeric Retry-After). -/
inductive HandlerResult where
  | response (resp : TutorResponse)
  | error (status : Nat) (detail : String)
  | uncaught (litText : String)
deriving DecidableEq

/-- `ask_tutor` (`src/ai.py` lines 133-151): build the prompt, call
`ask_openrouter`, substitute the fallback answer when the answer is
falsy (`None` or empty), and echo the request fields. -/
def ask_tutor (apiKey : Option String) (retries : Nat) (env : Nat → AttemptOutcome)
    (req : TutorRequest) : HandlerResult :=
  match (ask_openrouter apiKey (build_prompt req.subject req.level req.question)
      req.student_id retries env).2 with
  | AskResult.ok reply =>
    HandlerResult.response
      ⟨req.student_id, req.subject, req.level, req.question,
       if reply = "" then fallbackAnswer else reply⟩
  | AskResult.noneReturn =>
    HandlerResult.response
      ⟨req.student_id, req.subject, req.level, req.question, fallbackAnswer⟩
  | AskResult.httpException s d => HandlerResult.error s d
  | AskResult.uncaughtValueError m => HandlerResult.uncaught m

/-- `MIN_DELAY` (`src/ai.py` line 41), in seconds; timestamps are
modelled as rationals. -/
def MIN_DELAY : ℚ := 10

/-- The sleep duration computed by `wait_for_rate_limit`
(`src/ai.py` lines 50-51): `max(0, MIN_DELAY - (now - last))`. -/
def waitTime (last now : ℚ) : ℚ := max 0 (MIN_DELAY - (now - last))

/-- The value of `app.state.last_call_time` seen by the i-th gate call
(0-indexed): the sentinel `0.0` initially (`src/ai.py` line 45), and
thereafter the post-sleep `time.time()` reading `postAt (i-1)` stored
by the previous call (`src/ai.py` line 55). Calls are serialized by
`app.state.api_lock`, so the trace is a plain sequence. -/
def lastCallTime (nowAt postAt : ℕ → ℚ) : ℕ → ℚ
  | 0 => 0
  | i + 1 => postAt i

/-- A monotone-clock, accurate-sleep execution of the gate: call i
reads `nowAt i`, sleeps `waitTime (lastCallTime i) (nowAt i)` while
holding the lock, and its post-sleep reading `postAt i` is at least
the pre-sleep reading plus the full sleep duration. -/
def AccurateTrace (nowAt postAt : ℕ → ℚ) : Prop :=
  ∀ i, nowAt i + waitTime (lastCallTime nowAt postAt i) (nowAt i) ≤ postAt i

/-! ### Concrete environments and inputs used by witnesses -/

/-- An upstream that answers 429 without a Retry-After header on every attempt. -/
def env429 : Nat → AttemptOutcome := fun _ => AttemptOutcome.httpError 429 none "Rate limited"

/-- An upstream that succeeds at the transport level but yields a reply
that is empty after stripping, on every attempt. -/
def envEmpty : Nat → AttemptOutcome := fun _ => AttemptOutcome.success " "

/-- An upstream that answers 429 with `Retry-After: 5` on every attempt. -/
def env5 : Nat → AttemptOutcome := fun _ => AttemptOutcome.httpError 429 (some "5") "slow down"

/-- An HTTP-date `Retry-After` value: legal per RFC 9110, not decimal. -/
def dateHeader : String := "Thu, 01 Jan 2026 00:00:00 GMT"

/-- An upstream that answers 429 with an HTTP-date Retry-After on every attempt. -/
def envDate : Nat → AttemptOutcome :=
  fun _ => AttemptOutcome.httpError 429 (some dateHeader) "busy"

/-- A concrete request. -/
def req0 : TutorRequest := ⟨"s1", "Math", "beginner", "What is 2+2?"⟩

/-- A concrete gate schedule: every caller arrives at clock reading 0. -/
def wNow : ℕ → ℚ := fun _ => 0

/-- Post-sleep clock readings matching `wNow` under exact sleeps. -/
def wPost : ℕ → ℚ := fun i => 10 * i + 10

/-! ### Helper lemmas -/

/-- One loop iteration on a transport-level success whose reply strips
to empty, on a non-final attempt: sleep `2 ^ attempt` and continue. -/
theorem askAttempts_empty_step (env : Nat → AttemptOutcome) (retries attempt : Nat)
    (rest : List Nat) (c : String) (hc : env attempt = AttemptOutcome.success c)
    (hs : pyStrip c = "") (hlast : attempt ≠ retries) :
    askAttempts env retries (attempt :: rest) =
      (Action.post :: Action.sleep ((2 : Int) ^ attempt) :: (askAttempts env retries rest).1,
       (askAttempts env retries rest).2) := by
  simp [askAttempts, hc, hs, hlast]

/-- One loop iteration on a transport-level success whose reply strips
to empty, on the final attempt: the raised `ValueError` is caught by
the generic handler, which raises `HTTPException(502, ...)`. -/
theorem askAttempts_empty_last (env : Nat → AttemptOutcome) (retries : Nat)
    (rest : List Nat) (c : String) (hc : env retries = AttemptOutcome.success c)
    (hs : pyStrip c = "") :
    askAttempts env retries (retries :: rest) =
      ([Action.post],
       AskResult.httpException 502 ("TutorBot failed to respond: " ++ emptyReplyMsg)) := by
  simp [askAttempts, hc, hs]

/-- Under sustained header-less 429 responses, the loop posts once and
sleeps `2 ^ attempt` for every listed attempt, final attempt included,
and then falls off the end returning `None`. -/
theorem askAttempts_const429 (r : Nat) (l : List Nat) :
    askAttempts env429 r l =
      (l.flatMap (fun a => [Action.post, Action.sleep ((2 : Int) ^ a)]),
       AskResult.noneReturn) := by
  induction l with
  | nil => rfl
  | cons a rest ih => simp [askAttempts, env429, ih]

/-- With a present, non-empty API key, `ask_openrouter` is the retry
loop over attempts `1, ..., retries`. -/
theorem ask_openrouter_key_present (k : String) (hk : ¬ k = "") (prompt student_id : String)
    (retries : Nat) (env : Nat → AttemptOutcome) :
    ask_openrouter (some k) prompt student_id retries env =
      askAttempts env retries (List.range' 1 retries) := by
  simp [ask_openrouter, keyMissing, hk]

/-- Under sustained empty replies, attempts `a, ..., r` (with `a + n = r + 1`)
produce a post and a backoff sleep per non-final attempt, a final post,
and the 502 `HTTPException`. -/
theorem askAttempts_constEmpty (r : Nat) :
    ∀ n a, a + n = r + 1 → 1 ≤ n →
      askAttempts envEmpty r (List.range' a n) =
        ((List.range' a (n - 1)).flatMap
            (fun x => [Action.post, Action.sleep ((2 : Int) ^ x)]) ++ [Action.post],
         AskResult.httpException 502 ("TutorBot failed to respond: " ++ emptyReplyMsg)) := by
  intro n
  induction n with
  | zero => intro a _ h; omega
  | succ m ih =>
    intro a ha _
    cases m with
    | zero =>
      have har : a = r := by omega
      subst har
      rw [List.range'_succ]
      simpa using askAttempts_empty_last envEmpty a [] " " rfl (by decide)
    | succ k =>
      have hane : a ≠ r := by omega
      rw [List.range'_succ,
        askAttempts_empty_step envEmpty r a (List.range' (a + 1) (k + 1)) " " rfl (by decide) hane,
        ih (a + 1) (by omega) (by omega)]
      simp [List.range'_succ]

/-- In the sustained-429 backoff trace, the number of posts equals the
number of attempts. -/
theorem count_post_flatMap (l : List Nat) :
    (l.flatMap (fun a => [Action.post, Action.sleep ((2 : Int) ^ a)])).count Action.post =
      l.length := by
  induction l with
  | nil => rfl
  | cons a rest ih => simp [List.flatMap_cons, List.count_cons, List.count_append, ih]

/-! ### Claims -/

/-- C1, counterexample: with `retries = 3` and a 429 on every attempt,
`ask_openrouter` performs exactly 3 upstream posts — the final-attempt
429 sleeps `2 ^ 3` seconds and then the loop exhausts and the function
returns `None`; it does not re-attempt, so the number of attempts IS
capped by `max_retries`, contrary to the claim. -/
theorem c1_counterexample :
    ask_openrouter (some "key") "p" "s" 3 env429 =
      ([Action.post, Action.sleep 2, Action.post, Action.sleep 4, Action.post, Action.sleep 8],
       AskResult.noneReturn) ∧
    (ask_openrouter (some "key") "p" "s" 3 env429).1.count Action.post = 3 := by
  constructor <;> decide

/-- C1, amended: in the retry loop of `ask_openrouter`, a 429 response
never raises `UpstreamError` (the 502 `HTTPException`): under sustained
header-less 429 responses the function makes exactly `retries` attempts
(one post and one `2 ^ attempt` backoff sleep per attempt, the final
attempt included), and then terminates by returning `None` — the loop
is still bounded by `max_retries`; only the raising of `UpstreamError`
is skipped on the 429 path. -/
theorem c1_amended (r : Nat) :
    ask_openrouter (some "key") "p" "s" r env429 =
      ((List.range' 1 r).flatMap (fun a => [Action.post, Action.sleep ((2 : Int) ^ a)]),
       AskResult.noneReturn) ∧
    (ask_openrouter (some "key") "p" "s" r env429).1.count Action.post = r := by
  have h := askAttempts_const429 r (List.range' 1 r)
  rw [ask_openrouter_key_present "key" (by decide) "p" "s" r env429, h]
  exact ⟨rfl, by simp [count_post_flatMap, List.length_range']⟩

/-- The closing sentence asserted by the claim (not the one in the code). -/
def claimedClosing : String :=
  "Please explain in a clear, friendly tone with examples to help them understand."

/-- C2, counterexample: at a concrete input, the output of
`build_prompt` does not end with the claim's closing sentence
"... with examples to help them understand." — the code's closing line
is "Please explain in a clear, friendly tone with examples." -/
theorem c2_counterexample :
    ¬ (claimedClosing.data <:+ (build_prompt "math" "beginner" "What is 2+2?").data) ∧
    build_prompt "math" "beginner" "What is 2+2?" =
      "You are a friendly Math tutor. The student is at a beginner level.\n" ++
        "They asked: \"What is 2+2?\"\n" ++
        "Please explain in a clear, friendly tone with examples." := by
  constructor <;> decide

/-- C2, amended: for every subject, level and question, `build_prompt`
returns exactly the persona sentence, then " The student is at a
{level} level.", a newline, `They asked: "{question}"`, a newline, and
the fixed closing instruction "Please explain in a clear, friendly
tone with examples." — in particular the output always ends with that
exact closing sentence. -/
theorem c2_amended (subject level question : String) :
    build_prompt subject level question =
      personaFor subject ++ " The student is at a " ++ level ++ " level.\n" ++
        "They asked: \"" ++ question ++ "\"\n" ++ closingInstruction ∧
    closingInstruction.data <:+ (build_prompt subject level question).data := by
  refine ⟨rfl, ?_⟩
  unfold build_prompt
  rw [String.data_append]
  exact List.suffix_append _ _

/-- C3: when every attempt succeeds at the transport level but yields
a reply that is empty after stripping, `ask_openrouter` makes exactly
`retries` attempts, sleeps `2 ^ attempt` seconds after each non-final
attempt (`attempt = 1, ..., retries - 1`), and then raises
`HTTPException(502, ...)` (the empty-reply `ValueError` of the final
attempt is caught by the generic handler and surfaced as 502) rather
than returning. -/
theorem c3 (r : Nat) (h : 1 ≤ r) :
    ask_openrouter (some "key") "p" "s" r envEmpty =
      ((List.range' 1 (r - 1)).flatMap
          (fun a => [Action.post, Action.sleep ((2 : Int) ^ a)]) ++ [Action.post],
       AskResult.httpException 502 ("TutorBot failed to respond: " ++ emptyReplyMsg)) := by
  rw [ask_openrouter_key_present "key" (by decide) "p" "s" r envEmpty]
  exact askAttempts_constEmpty r r 1 (by omega) h

/-- Witness for C3 at `retries = 3`: three posts, sleeps of 2 and 4
seconds after attempts 1 and 2, then the 502. -/
theorem c3_witness :
    1 ≤ 3 ∧
    ask_openrouter (some "key") "p" "s" 3 envEmpty =
      ((List.range' 1 2).flatMap
          (fun a => [Action.post, Action.sleep ((2 : Int) ^ a)]) ++ [Action.post],
       AskResult.httpException 502 ("TutorBot failed to respond: " ++ emptyReplyMsg)) :=
  ⟨by norm_num, c3 3 (by norm_num)⟩

/-- C5: when the API key is absent (or empty, which Python's truthiness
test treats the same), `ask_openrouter` fails immediately with
`HTTPException(500, "Missing OpenRouter API key")`: no network call,
no sleep, no retry attempt, for every prompt, student id, retry budget
and upstream behaviour. -/
theorem c5 (apiKey : Option String) (h : keyMissing apiKey = true)
    (prompt student_id : String) (retries : Nat) (env : Nat → AttemptOutcome) :
    ask_openrouter apiKey prompt student_id retries env =
      ([], AskResult.httpException 500 "Missing OpenRouter API key") := by
  simp [ask_openrouter, h]

/-- Witness for C5 at an unset key: the action trace is empty and the
result is the 500 configuration error. -/
theorem c5_witness :
    keyMissing none = true ∧
    ask_openrouter none "p" "s" 3 env429 =
      ([], AskResult.httpException 500 "Missing OpenRouter API key") :=
  ⟨rfl, c5 none rfl "p" "s" 3 env429⟩

/-- C4: for every serialized sequence of `wait_for_rate_limit` calls
under a monotone clock and accurate sleeps (each call's post-sleep
clock reading is at least its pre-sleep reading plus the computed
`max(0, MIN_DELAY - elapsed)` sleep), the difference between any two
consecutively recorded values of `last_call_time` is at least
`MIN_DELAY`. -/
theorem c4 (nowAt postAt : ℕ → ℚ) (h : AccurateTrace nowAt postAt) :
    ∀ i, MIN_DELAY ≤ lastCallTime nowAt postAt (i + 2) - lastCallTime nowAt postAt (i + 1) := by
  intro i
  have hh := h (i + 1)
  have hw : MIN_DELAY - (nowAt (i + 1) - lastCallTime nowAt postAt (i + 1)) ≤
      waitTime (lastCallTime nowAt postAt (i + 1)) (nowAt (i + 1)) := le_max_right _ _
  have h1 : lastCallTime nowAt postAt (i + 1) = postAt i := rfl
  have h2 : lastCallTime nowAt postAt (i + 2) = postAt (i + 1) := rfl
  rw [h1] at hh hw
  rw [h1, h2]
  linarith

/-- Witness for C4: a schedule where every caller arrives at clock 0
and each exact sleep lands the post-sleep reading at `10 * i + 10`;
the recorded values are then spaced exactly `MIN_DELAY` apart. -/
theorem c4_witness :
    AccurateTrace wNow wPost ∧
    MIN_DELAY ≤ lastCallTime wNow wPost 2 - lastCallTime wNow wPost 1 := by
  have hacc : AccurateTrace wNow wPost := by
    intro i
    have hj : (0 : ℚ) ≤ (i : ℚ) := Nat.cast_nonneg i
    cases i with
    | zero =>
      simp only [wNow, wPost, waitTime, lastCallTime, MIN_DELAY, zero_add]
      norm_num
    | succ j =>
      have hj2 : (0 : ℚ) ≤ (j : ℚ) := Nat.cast_nonneg j
      simp only [wNow, wPost, waitTime, lastCallTime, MIN_DELAY, zero_add]
      push_cast
      apply max_le <;> linarith
  exact ⟨hacc, c4 wNow wPost hacc 0⟩

/-- C6: for every subject string whose (Python-)lowercased form is one
of the eight persona-table keys, `build_prompt` embeds exactly the
corresponding persona sentence, and that persona is the first
component (a prefix) of the prompt; for every other subject it embeds
the default persona "You are a helpful AI tutor.". -/
theorem c6 :
    (∀ s : String,
      (pyLower s = "math" → personaFor s = "You are a friendly Math tutor.") ∧
      (pyLower s = "science" → personaFor s = "You explain science with clarity and excitement.") ∧
      (pyLower s = "sst" → personaFor s = "You teach Social Studies using relatable examples.") ∧
      (pyLower s = "english" →
        personaFor s = "You help students learn English using simple grammar tips and vocabulary.") ∧
      (pyLower s = "biology" → personaFor s = "You explain biology concepts visually and clearly.") ∧
      (pyLower s = "chemistry" → personaFor s = "You explain chemistry using everyday examples.") ∧
      (pyLower s = "coding" → personaFor s = "You teach programming with clear code samples.") ∧
      (pyLower s = "history" → personaFor s = "You explain history as engaging stories.") ∧
      (pyLower s ∉ promptsTable.map Prod.fst → personaFor s = defaultPersona)) ∧
    (∀ s level question : String,
      (personaFor s).data <+: (build_prompt s level question).data) := by
  constructor
  · intro s
    have hdef : pyLower s ∉ promptsTable.map Prod.fst → personaFor s = defaultPersona := by
      intro h
      simp only [promptsTable, List.map_cons, List.map_nil, List.mem_cons,
        List.not_mem_nil, or_false, not_or] at h
      obtain ⟨h1, h2, h3, h4, h5, h6, h7, h8⟩ := h
      have hnone : promptsTable.find? (fun p => p.1 == pyLower s) = none := by
        rw [List.find?_eq_none]
        intro p hp
        simp only [promptsTable, List.mem_cons, List.not_mem_nil, or_false] at hp
        rcases hp with hq | hq | hq | hq | hq | hq | hq | hq <;> subst hq <;>
          simp only [beq_iff_eq] <;>
          first
          | exact fun hh => h1 hh.symm
          | exact fun hh => h2 hh.symm
          | exact fun hh => h3 hh.symm
          | exact fun hh => h4 hh.symm
          | exact fun hh => h5 hh.symm
          | exact fun hh => h6 hh.symm
          | exact fun hh => h7 hh.symm
          | exact fun hh => h8 hh.symm
      unfold personaFor
      rw [hnone]
    refine ⟨?_, ?_, ?_, ?_, ?_, ?_, ?_, ?_, hdef⟩ <;>
      (intro h; unfold personaFor; rw [h]; decide)
  · intro s level question
    unfold build_prompt
    simp only [String.data_append, List.append_assoc]
    exact List.prefix_append _ _

/-- Witness for C6: "MATH" lowercases to the key "math" and gets the
math persona; "Quantum Physics" is not a key and gets the default. -/
theorem c6_witness :
    pyLower "MATH" = "math" ∧
    personaFor "MATH" = "You are a friendly Math tutor." ∧
    pyLower "Quantum Physics" ∉ promptsTable.map Prod.fst ∧
    personaFor "Quantum Physics" = defaultPersona :=
  ⟨by decide, (c6.1 "MATH").1 (by decide), by decide,
   (c6.1 "Quantum Physics").2.2.2.2.2.2.2.2 (by decide)⟩

/-- C7: when an attempt observes an HTTP 429 whose Retry-After header
parses as the integer `n`, the loop sleeps exactly `n` seconds next
(so `Retry-After: 5` sleeps exactly 5 seconds), for every attempt
number including the final one; when the header is absent it sleeps
`2 ^ attempt` seconds instead. -/
theorem c7 (env : Nat → AttemptOutcome) (retries attempt : Nat) (rest : List Nat)
    (body : String) :
    (∀ s n, env attempt = AttemptOutcome.httpError 429 (some s) body →
      pythonInt s = some n →
      askAttempts env retries (attempt :: rest) =
        (Action.post :: Action.sleep n :: (askAttempts env retries rest).1,
         (askAttempts env retries rest).2)) ∧
    (env attempt = AttemptOutcome.httpError 429 none body →
      askAttempts env retries (attempt :: rest) =
        (Action.post :: Action.sleep ((2 : Int) ^ attempt) :: (askAttempts env retries rest).1,
         (askAttempts env retries rest).2)) := by
  constructor
  · intro s n h hi
    simp [askAttempts, h, hi]
  · intro h
    simp [askAttempts, h]

/-- Witness for C7 at the final attempt (`attempt = retries = 3`) with
`Retry-After: 5`: the sleep is exactly 5 seconds. -/
theorem c7_witness :
    env5 3 = AttemptOutcome.httpError 429 (some "5") "slow down" ∧
    pythonInt "5" = some 5 ∧
    askAttempts env5 3 [3] =
      (Action.post :: Action.sleep 5 :: (askAttempts env5 3 []).1,
       (askAttempts env5 3 []).2) :=
  ⟨rfl, by decide, (c7 env5 3 3 [] "slow down").1 "5" 5 rfl (by decide)⟩

/-- C8: every 200 response of `ask_tutor` echoes the request's
student_id, subject, level and question unchanged alongside the
answer; and when `ask_openrouter` produces no answer (the `None`
return of the exhausted-429 path), the handler substitutes the fixed
apology string instead of failing. -/
theorem c8 (apiKey : Option String) (retries : Nat) (env : Nat → AttemptOutcome)
    (req : TutorRequest) :
    (∀ resp, ask_tutor apiKey retries env req = HandlerResult.response resp →
      resp.student_id = req.student_id ∧ resp.subject = req.subject ∧
      resp.level = req.level ∧ resp.question = req.question) ∧
    ((ask_openrouter apiKey (build_prompt req.subject req.level req.question)
        req.student_id retries env).2 = AskResult.noneReturn →
      ask_tutor apiKey retries env req =
        HandlerResult.response
          ⟨req.student_id, req.subject, req.level, req.question, fallbackAnswer⟩) := by
  constructor
  · intro resp h
    unfold ask_tutor at h
    cases hres : (ask_openrouter apiKey (build_prompt req.subject req.level req.question)
        req.student_id retries env).2 with
    | ok reply =>
      rw [hres] at h
      cases h
      exact ⟨rfl, rfl, rfl, rfl⟩
    | httpException s d => rw [hres] at h; cases h
    | uncaughtValueError m => rw [hres] at h; cases h
    | noneReturn =>
      rw [hres] at h
      cases h
      exact ⟨rfl, rfl, rfl, rfl⟩
  · intro hres
    unfold ask_tutor
    rw [hres]

/-- Witness for C8: with one attempt and a sustained 429, the
upstream client returns `None` and the handler answers 200 with the
apology, echoing all request fields. -/
theorem c8_witness :
    (ask_openrouter (some "key") (build_prompt req0.subject req0.level req0.question)
        req0.student_id 1 env429).2 = AskResult.noneReturn ∧
    ask_tutor (some "key") 1 env429 req0 =
      HandlerResult.response
        ⟨req0.student_id, req0.subject, req0.level, req0.question, fallbackAnswer⟩ ∧
    (⟨req0.student_id, req0.subject, req0.level, req0.question, fallbackAnswer⟩ :
        TutorResponse).student_id = req0.student_id :=
  ⟨by decide, (c8 (some "key") 1 env429 req0).2 (by decide),
   ((c8 (some "key") 1 env429 req0).1 _ ((c8 (some "key") 1 env429 req0).2 (by decide))).1⟩

/-- C9: if every attempt (in particular the final one) of
`ask_openrouter` receives a header-less 429, the function sleeps the
backoff duration after the final attempt and the loop exhausts
without raising, so it returns `None`; `ask_tutor` then takes its
empty-answer fallback branch and returns a 200 response carrying the
apology string, not a 502. -/
theorem c9 (r : Nat) (h : 1 ≤ r) (req : TutorRequest) :
    (ask_openrouter (some "key") (build_prompt req.subject req.level req.question)
        req.student_id r env429).2 = AskResult.noneReturn ∧
    (ask_openrouter (some "key") (build_prompt req.subject req.level req.question)
        req.student_id r env429).1 =
      (List.range' 1 (r - 1)).flatMap
          (fun a => [Action.post, Action.sleep ((2 : Int) ^ a)]) ++
        [Action.post, Action.sleep ((2 : Int) ^ r)] ∧
    ask_tutor (some "key") r env429 req =
      HandlerResult.response
        ⟨req.student_id, req.subject, req.level, req.question, fallbackAnswer⟩ := by
  have hopen := ask_openrouter_key_present "key" (by decide)
    (build_prompt req.subject req.level req.question) req.student_id r env429
  have hrun := askAttempts_const429 r (List.range' 1 r)
  have hsplit : List.range' 1 r = List.range' 1 (r - 1) ++ [r] := by
    have hr : r - 1 + 1 = r := by omega
    rw [← hr, List.range'_concat]
    simp [hr]
    omega
  refine ⟨by rw [hopen, hrun], ?_, ?_⟩
  · rw [hopen, hrun, hsplit, List.flatMap_append]
    simp
  · unfold ask_tutor
    rw [hopen, hrun]

/-- Witness for C9 at `retries = 2`: two posts, two backoff sleeps,
`None` from the client, 200-with-apology from the handler. -/
theorem c9_witness :
    1 ≤ 2 ∧
    ((ask_openrouter (some "key") (build_prompt req0.subject req0.level req0.question)
        req0.student_id 2 env429).2 = AskResult.noneReturn ∧
     (ask_openrouter (some "key") (build_prompt req0.subject req0.level req0.question)
        req0.student_id 2 env429).1 =
       (List.range' 1 1).flatMap
           (fun a => [Action.post, Action.sleep ((2 : Int) ^ a)]) ++
         [Action.post, Action.sleep ((2 : Int) ^ 2)] ∧
     ask_tutor (some "key") 2 env429 req0 =
       HandlerResult.response
         ⟨req0.student_id, req0.subject, req0.level, req0.question, fallbackAnswer⟩) :=
  ⟨by norm_num, c9 2 (by norm_num) req0⟩

/-- C10: when a 429 response carries a Retry-After value that is not a
valid decimal integer (for example an HTTP-date), the `int()` call in
the 429 branch raises a `ValueError` inside the except handler; no
branch of the loop catches it, so on every attempt number the loop
terminates immediately with that escaped `ValueError` — an outcome
outside the 500/502 `HTTPException` taxonomy — and it propagates
through `ask_tutor` untranslated. -/
theorem c10 (env : Nat → AttemptOutcome) (retries attempt : Nat) (rest : List Nat)
    (s body : String) (h1 : env attempt = AttemptOutcome.httpError 429 (some s) body)
    (h2 : pythonInt s = none) :
    askAttempts env retries (attempt :: rest) =
      ([Action.post], AskResult.uncaughtValueError s) ∧
    (∀ status detail, (askAttempts env retries (attempt :: rest)).2 ≠
      AskResult.httpException status detail) ∧
    (1 ≤ retries → attempt = 1 →
      ∀ req : TutorRequest,
        ask_tutor (some "key") retries env req = HandlerResult.uncaught s) := by
  have hstep : askAttempts env retries (attempt :: rest) =
      ([Action.post], AskResult.uncaughtValueError s) := by
    simp [askAttempts, h1, h2]
  refine ⟨hstep, ?_, ?_⟩
  · intro status detail
    rw [hstep]
    simp
  · intro hr ha req
    subst ha
    obtain ⟨m, rfl⟩ : ∃ m, retries = m + 1 := ⟨retries - 1, by omega⟩
    have hrange : List.range' 1 (m + 1) = 1 :: List.range' 2 m := List.range'_succ 1 m 1
    have hopen := ask_openrouter_key_present "key" (by decide)
      (build_prompt req.subject req.level req.question) req.student_id (m + 1) env
    have hloop : askAttempts env (m + 1) (List.range' 1 (m + 1)) =
        ([Action.post], AskResult.uncaughtValueError s) := by
      rw [hrange]
      simp [askAttempts, h1, h2]
    unfold ask_tutor
    rw [hopen, hloop]

/-- Witness for C10 on attempt 1 of 3 with an HTTP-date Retry-After:
the loop stops with the escaped `ValueError` carrying the header text,
and `ask_tutor` surfaces it outside the 500/502 taxonomy. -/
theorem c10_witness :
    envDate 1 = AttemptOutcome.httpError 429 (some dateHeader) "busy" ∧
    pythonInt dateHeader = none ∧
    askAttempts envDate 3 [1, 2, 3] = ([Action.post], AskResult.uncaughtValueError dateHeader) ∧
    ask_tutor (some "key") 3 envDate req0 = HandlerResult.uncaught dateHeader :=
  ⟨rfl, by decide,
   (c10 envDate 3 1 [2, 3] dateHeader "busy" rfl (by decide)).1,
   (c10 envDate 3 1 [2, 3] dateHeader "busy" rfl (by decide)).2.2 (by norm_num) rfl req0⟩

end TutorBot
